import Mathlib

/-!
Verification of the parking backend reconciliation logic.

The development is a shallow embedding of the core of src/app.py: the
per-space record (a MongoDB document, here a structure), the parking
collection (a list of records keyed by node_id, first match wins on
find_one and update_one), the session log and the history log (append-only
lists), and the five endpoint handlers as state-transition functions.

Modelling conventions, all noted at the definition they affect:
- timestamps are natural numbers (unix seconds, as returned by now_ts);
  every call of now_ts within a single request is the same second, so each
  handler takes one now parameter;
- duration_seconds is an integer (Python int subtraction may be negative);
- distance_cm is carried as an integer: the code only stores and echoes it,
  never computes with it, so the carrier type is immaterial;
- Python truthiness of an optional timestamp (None and 0 are falsy) is
  modelled by optTruthy;
- uuid.uuid4() in reserve_space is modelled by a freshToken parameter;
- the human-readable timestamp string of ts_to_readable is a pure rendering
  of last_update and is omitted from the status view.
-/

namespace Parking

/-- One parking-space document of the parking_spaces collection, after
create_default_node in src/app.py. String-valued fields stay strings: the
code compares sensor_status and admin_mode against string literals and
never restricts them to an enum. The field checkin_time appears in the
specification data model only; no code in src/app.py ever reads or writes
it (records created by create_default_node carry none), it exists here so
that the spec-modelled check-in operation can set it. -/
structure Node where
  node_id : String
  sensor_status : String
  distance_cm : Int
  reserved : Bool
  violation : Bool
  reservation_start : Option Nat
  reservation_expiry : Option Nat
  admin_mode : String
  qr_token : Option String
  checked_in : Bool
  checkin_time : Option Nat
  active_session_start : Option Nat
  last_update : Nat
  deriving Repr, DecidableEq

/-- One document of the parking_sessions collection, as inserted by
update_node on an OCCUPIED to FREE transition. -/
structure SessionRecord where
  node_id : String
  start_time : Nat
  end_time : Nat
  duration_seconds : Int
  deriving Repr, DecidableEq

/-- One document of the history collection, as inserted by update_node. -/
structure HistoryEntry where
  node_id : String
  sensor_status : String
  distance_cm : Int
  timestamp : Nat
  deriving Repr, DecidableEq

/-- The three MongoDB collections the handlers touch. -/
structure ServerState where
  parking : List Node
  history : List HistoryEntry
  sessions : List SessionRecord
  deriving Repr, DecidableEq

/-- The empty database. -/
def initState : ServerState := ⟨[], [], []⟩

/-- parking_collection.find_one on the node_id key: first matching document. -/
def dbFind (db : List Node) (nid : String) : Option Node :=
  db.find? (fun n => n.node_id == nid)

/-- parking_collection.update_one on the node_id key: rewrite the first
matching document, leave the rest untouched. -/
def dbUpdateFirst (db : List Node) (nid : String) (f : Node → Node) : List Node :=
  match db with
  | [] => []
  | n :: rest =>
      if n.node_id == nid then f n :: rest else n :: dbUpdateFirst rest nid f

/-- Python truthiness of an optional timestamp: None and 0 are falsy.
Used for the reservation_expiry test in enforce_expiry and the
active_session_start test in update_node. -/
def optTruthy : Option Nat → Bool
  | none => false
  | some v => v != 0

/-- create_default_node of src/app.py; last_update is now_ts at creation. -/
def create_default_node (nid : String) (now : Nat) : Node :=
  { node_id := nid
    sensor_status := "FREE"
    distance_cm := 0
    reserved := false
    violation := false
    reservation_start := none
    reservation_expiry := none
    admin_mode := "NORMAL"
    qr_token := none
    checked_in := false
    checkin_time := none
    active_session_start := none
    last_update := now }

/-- RESERVATION_DURATION of src/app.py (seconds). -/
def RESERVATION_DURATION : Nat := 30

/-- compute_final of src/app.py, the derived final status. -/
def compute_final (node : Node) : String :=
  if node.admin_mode == "MAINTENANCE" then "MAINTENANCE"
  else if node.reserved && !node.checked_in && (node.sensor_status == "OCCUPIED") then
    "VIOLATION"
  else if node.reserved then "RESERVED"
  else node.sensor_status

/-- The condition under which enforce_expiry fires: the two nested if tests
of src/app.py lines 107-108 (reserved truthy, reservation_expiry truthy,
now_ts at or past the expiry). -/
def expiryCond (node : Node) (now : Nat) : Bool :=
  node.reserved && optTruthy node.reservation_expiry
    && (node.reservation_expiry.getD 0 ≤ now)

/-- The $set document enforce_expiry writes when it fires: clear reserved,
reservation_start, reservation_expiry, qr_token, violation, checked_in and
stamp last_update. It does not touch checkin_time (no such key exists in
the code) nor active_session_start nor sensor_status. -/
def clearExpired (now : Nat) (m : Node) : Node :=
  { m with reserved := false, reservation_start := none,
           reservation_expiry := none, qr_token := none, violation := false,
           checked_in := false, last_update := now }

/-- enforce_expiry of src/app.py as it acts on the database: it reads the
in-memory node passed to it and, when the condition holds, issues an
update_one against the document with that node_id. The in-memory node is
NOT mutated; only the stored document changes. -/
def enforce_expiry (db : List Node) (node : Node) (now : Nat) : List Node :=
  if expiryCond node now then dbUpdateFirst db node.node_id (clearExpired now)
  else db

/-- The effect of the enforce_expiry write on the single record it targets,
as a pure record transformer (the specification name is applyExpiry):
when the condition fires the record receives the clearing $set, otherwise
it is unchanged. -/
def applyExpiry (n : Node) (now : Nat) : Node :=
  if expiryCond n now then clearExpired now n else n

/-- The find-or-create preamble shared by update_node and reserve_space:
find_one, and when absent insert a freshly created default node
(insert_one appends). Returns the in-memory node the handler works on and
the collection after the optional insert. -/
def getOrCreate (db : List Node) (nid : String) (now : Nat) :
    Node × List Node :=
  match dbFind db nid with
  | some n => (n, db)
  | none => (create_default_node nid now, db ++ [create_default_node nid now])

/-- The evolution of the in-memory node dict inside update_node
(src/app.py lines 134-162): capture prev; on FREE to OCCUPIED set
active_session_start to now; on OCCUPIED to FREE clear it; overwrite
sensor_status, distance_cm, last_update; recompute the stored violation
flag from admin_mode, reserved, checked_in and the new reading. -/
def sensorNode (node0 : Node) (sensor : String) (dist : Int) (now : Nat) :
    Node :=
  let prev := node0.sensor_status
  let node1 :=
    if prev == "FREE" && sensor == "OCCUPIED" then
      { node0 with active_session_start := some now }
    else node0
  let node2 :=
    if prev == "OCCUPIED" && sensor == "FREE" then
      { node1 with active_session_start := none }
    else node1
  let node3 := { node2 with sensor_status := sensor, distance_cm := dist,
                            last_update := now }
  { node3 with violation :=
    (node3.admin_mode == "NORMAL") && node3.reserved && !node3.checked_in
      && (sensor == "OCCUPIED") }

/-- The session-log side effect of update_node (src/app.py lines 140-149):
on an OCCUPIED to FREE transition with a truthy active_session_start,
append one completed SessionRecord whose duration is end minus start. -/
def sensorSessions (node0 : Node) (sessions : List SessionRecord)
    (nid sensor : String) (now : Nat) : List SessionRecord :=
  let prev := node0.sensor_status
  let node1 :=
    if prev == "FREE" && sensor == "OCCUPIED" then
      { node0 with active_session_start := some now }
    else node0
  if prev == "OCCUPIED" && sensor == "FREE" then
    if optTruthy node1.active_session_start then
      sessions ++ [{ node_id := nid,
                     start_time := node1.active_session_start.getD 0,
                     end_time := now,
                     duration_seconds :=
                       (now : Int) - (node1.active_session_start.getD 0 : Nat) }]
    else sessions
  else sessions

/-- update_node of src/app.py (POST /api/node/update). Steps, in source
order: find-or-create; enforce_expiry (a database write computed from the
in-memory node); the in-memory session and field updates of sensorNode and
sensorSessions; then persist the WHOLE in-memory dict with update_one $set
(so every field of the stored document, including any the enforce_expiry
write had just cleared, is overwritten with the in-memory value); append
the raw history entry. The handler always answers ok. -/
def update_node (st : ServerState) (nid : String) (sensor : String)
    (dist : Int) (now : Nat) : ServerState :=
  let fc := getOrCreate st.parking nid now
  let node0 := fc.1
  let parking1 := fc.2
  let parking2 := enforce_expiry parking1 node0 now
  { parking := dbUpdateFirst parking2 nid (fun _ => sensorNode node0 sensor dist now)
    history := st.history ++ [{ node_id := nid, sensor_status := sensor,
                                distance_cm := dist, timestamp := now }]
    sessions := sensorSessions node0 st.sessions nid sensor now }

/-- reserve_space of src/app.py (POST /api/reserve). find-or-create, then
reject with HTTP 400 when the in-memory node is in maintenance; otherwise
a $set of the reservation fields (reserve) or of the clearing fields
(cancel). The fresh uuid4 token is the freshToken parameter. The outcome
is the HTTP result: ok or the raised error. -/
def reserve_space (st : ServerState) (nid : String) (rsv : Bool) (now : Nat)
    (freshToken : String) : Except (Nat × String) Unit × ServerState :=
  let fc := getOrCreate st.parking nid now
  let node0 := fc.1
  let parking1 := fc.2
  if node0.admin_mode == "MAINTENANCE" then
    (Except.error (400, "Node in maintenance"), { st with parking := parking1 })
  else if rsv then
    let parking2 := dbUpdateFirst parking1 nid (fun m =>
      { m with reserved := true, reservation_start := some now,
               reservation_expiry := some (now + RESERVATION_DURATION),
               qr_token := some freshToken, checked_in := false,
               last_update := now })
    (Except.ok (), { st with parking := parking2 })
  else
    let parking2 := dbUpdateFirst parking1 nid (fun m =>
      { m with reserved := false, reservation_start := none,
               reservation_expiry := none, qr_token := none,
               violation := false, checked_in := false,
               last_update := now })
    (Except.ok (), { st with parking := parking2 })

/-- The per-node view returned by GET /api/parking/status, built from the
in-memory node as fetched by the cursor (enforce_expiry writes to the
database, not to this dict). final_status is recomputed by compute_final;
violation is the STORED field of the fetched document. -/
structure StatusView where
  final_status : String
  sensor_status : String
  distance_cm : Int
  reserved : Bool
  violation : Bool
  admin_mode : String
  qr_token : Option String
  reservation_expiry : Option Nat
  server_timestamp : Nat
  deriving Repr, DecidableEq

/-- Project the status view of one fetched document. -/
def mkView (node : Node) : StatusView :=
  { final_status := compute_final node
    sensor_status := node.sensor_status
    distance_cm := node.distance_cm
    reserved := node.reserved
    violation := node.violation
    admin_mode := node.admin_mode
    qr_token := node.qr_token
    reservation_expiry := node.reservation_expiry
    server_timestamp := node.last_update }

/-- get_status of src/app.py (GET /api/parking/status): iterate over a
snapshot of the collection; for each fetched document run enforce_expiry
(a database write) and emit the view of the document as fetched. Python
builds a dict keyed by node_id; with the unique node_id keys the handlers
maintain, the association list of views is equivalent. -/
def get_status (st : ServerState) (now : Nat) :
    List (String × StatusView) × ServerState :=
  let r := st.parking.foldl
    (fun acc node =>
      (acc.1 ++ [(node.node_id, mkView node)], enforce_expiry acc.2 node now))
    ([], st.parking)
  (r.1, { st with parking := r.2 })

/-- admin_maintenance of src/app.py (POST /api/admin/maintenance/node_id):
an unconditional update_one that sets admin_mode to MAINTENANCE, clears
reserved, qr_token and violation, stamps last_update — and leaves
reservation_start, reservation_expiry and checked_in untouched. It never
checks that the node exists and always answers ok. -/
def admin_maintenance (st : ServerState) (nid : String) (now : Nat) :
    Except (Nat × String) Unit × ServerState :=
  let parking2 := dbUpdateFirst st.parking nid (fun m =>
    { m with admin_mode := "MAINTENANCE", reserved := false,
             qr_token := none, violation := false, last_update := now })
  (Except.ok (), { st with parking := parking2 })

/-- admin_resume of src/app.py (POST /api/admin/resume/node_id): an
unconditional update_one that sets admin_mode to NORMAL and stamps
last_update. It never checks that the node exists and always answers ok. -/
def admin_resume (st : ServerState) (nid : String) (now : Nat) :
    Except (Nat × String) Unit × ServerState :=
  let parking2 := dbUpdateFirst st.parking nid (fun m =>
    { m with admin_mode := "NORMAL", last_update := now })
  (Except.ok (), { st with parking := parking2 })

/-- The check-in error kinds of specification section 4.1. -/
inductive CheckInError where
  | NotFound
  | AlreadyCheckedIn
  | InvalidToken
  deriving Repr, DecidableEq

/-- Modelled from the spec: src/app.py has no check-in endpoint at all,
so applyCheckIn is taken from specification section 4.1 verbatim: run
applyExpiry first; fail NotFound if no reservation is active afterwards,
AlreadyCheckedIn if checked_in, InvalidToken if the presented token is not
the stored qr_token; on success set checked_in, checkin_time and
last_update, nothing else. -/
def applyCheckIn (space : Node) (presented : String) (now : Nat) :
    Except CheckInError Node :=
  let s := applyExpiry space now
  if s.reserved = false then Except.error CheckInError.NotFound
  else if s.checked_in = true then Except.error CheckInError.AlreadyCheckedIn
  else if some presented ≠ s.qr_token then Except.error CheckInError.InvalidToken
  else Except.ok { s with checked_in := true, checkin_time := some now,
                          last_update := now }

/-- The recomputed violation flag, exactly the formula update_node stores
(src/app.py lines 157-162) as a function of the four canonical fields. -/
def recomputeViolation (n : Node) : Bool :=
  (n.admin_mode == "NORMAL") && n.reserved && !n.checked_in
    && (n.sensor_status == "OCCUPIED")

/-- The steps of the system: each endpoint handler of src/app.py applied
with arbitrary request payloads and an arbitrary request time. -/
inductive Step : ServerState → ServerState → Prop where
  | sensor (st : ServerState) (nid sensor : String) (dist : Int) (now : Nat) :
      Step st (update_node st nid sensor dist now)
  | reserveStep (st : ServerState) (nid : String) (rsv : Bool) (now : Nat)
      (tok : String) : Step st (reserve_space st nid rsv now tok).2
  | statusStep (st : ServerState) (now : Nat) : Step st (get_status st now).2
  | maintStep (st : ServerState) (nid : String) (now : Nat) :
      Step st (admin_maintenance st nid now).2
  | resumeStep (st : ServerState) (nid : String) (now : Nat) :
      Step st (admin_resume st nid now).2

/-- The states the server can reach from the empty database by any
sequence of requests. -/
inductive Reachable : ServerState → Prop where
  | init : Reachable initState
  | step {st st' : ServerState} : Reachable st → Step st st' → Reachable st'

/-- A reserved document is never simultaneously in maintenance mode:
admin_maintenance clears reserved when it sets MAINTENANCE, and
reserve_space refuses a node in maintenance. -/
def ReservedNotMaintenance (st : ServerState) : Prop :=
  ∀ n ∈ st.parking, n.reserved = true → n.admin_mode ≠ "MAINTENANCE"

section DbLemmas

lemma dbFind_mem {db : List Node} {nid : String} {n : Node}
    (h : dbFind db nid = some n) : n ∈ db :=
  List.mem_of_find?_eq_some h

lemma dbFind_node_id {db : List Node} {nid : String} {n : Node}
    (h : dbFind db nid = some n) : n.node_id = nid := by
  have := List.find?_some h
  simpa using this

lemma mem_dbUpdateFirst {db : List Node} {nid : String} {f : Node → Node}
    {n : Node} (h : n ∈ dbUpdateFirst db nid f) :
    n ∈ db ∨ ∃ m, dbFind db nid = some m ∧ n = f m := by
  induction db with
  | nil => simp [dbUpdateFirst] at h
  | cons a rest ih =>
      by_cases ha : a.node_id == nid
      · simp only [dbUpdateFirst, ha, if_pos] at h
        rcases List.mem_cons.mp h with h1 | h1
        · exact Or.inr ⟨a, by simp [dbFind, List.find?, ha], h1⟩
        · exact Or.inl (List.mem_cons_of_mem _ h1)
      · simp only [dbUpdateFirst, ha, if_neg, Bool.false_eq_true,
          not_false_eq_true] at h
        rcases List.mem_cons.mp h with h1 | h1
        · exact Or.inl (h1 ▸ List.mem_cons_self a rest)
        · rcases ih h1 with h2 | ⟨m, hm, hfm⟩
          · exact Or.inl (List.mem_cons_of_mem _ h2)
          · refine Or.inr ⟨m, ?_, hfm⟩
            simpa [dbFind, List.find?, ha] using hm

lemma dbFind_update_of_found {db : List Node} {nid : String} {f : Node → Node}
    {m : Node} (h : dbFind db nid = some m) (hf : (f m).node_id = nid) :
    dbFind (dbUpdateFirst db nid f) nid = some (f m) := by
  induction db with
  | nil => simp [dbFind] at h
  | cons a rest ih =>
      by_cases ha : a.node_id == nid
      · simp only [dbFind, List.find?, ha] at h
        cases h
        simp [dbUpdateFirst, dbFind, List.find?, ha, hf]
      · simp only [dbFind, List.find?, ha] at h
        have := ih h
        simp [dbUpdateFirst, dbFind, List.find?, ha] at this ⊢
        exact this

lemma dbUpdateFirst_of_not_found {db : List Node} {nid : String}
    {f : Node → Node} (h : dbFind db nid = none) :
    dbUpdateFirst db nid f = db := by
  induction db with
  | nil => rfl
  | cons a rest ih =>
      by_cases ha : a.node_id == nid
      · simp [dbFind, List.find?, ha] at h
      · simp only [dbFind, List.find?, ha] at h
        simp [dbUpdateFirst, ha, ih h]

lemma getOrCreate_node_id (db : List Node) (nid : String) (now : Nat) :
    (getOrCreate db nid now).1.node_id = nid := by
  unfold getOrCreate
  cases h : dbFind db nid with
  | none => simp [create_default_node]
  | some n => simpa using dbFind_node_id h

lemma dbFind_append_right {db : List Node} {nid : String}
    (h : dbFind db nid = none) (l : List Node) :
    dbFind (db ++ l) nid = dbFind l nid := by
  induction db with
  | nil => rfl
  | cons a rest ih =>
      by_cases ha : a.node_id == nid
      · simp [dbFind, List.find?, ha] at h
      · simp only [dbFind, List.find?, ha] at h
        simp only [dbFind, List.cons_append, List.find?, ha]
        exact ih h

lemma dbFind_getOrCreate (db : List Node) (nid : String) (now : Nat) :
    dbFind (getOrCreate db nid now).2 nid = some (getOrCreate db nid now).1 := by
  unfold getOrCreate
  cases h : dbFind db nid with
  | some n => simpa using h
  | none =>
      simp only
      rw [dbFind_append_right h]
      simp [dbFind, List.find?, create_default_node]

lemma mem_getOrCreate {db : List Node} {nid : String} {now : Nat} {n : Node}
    (h : n ∈ (getOrCreate db nid now).2) :
    n ∈ db ∨ n = create_default_node nid now := by
  unfold getOrCreate at h
  cases hf : dbFind db nid with
  | some m => rw [hf] at h; exact Or.inl h
  | none =>
      rw [hf] at h
      simp only at h
      rcases List.mem_append.mp h with h1 | h1
      · exact Or.inl h1
      · simp at h1
        exact Or.inr h1

lemma getOrCreate_found {db : List Node} {nid : String} {now : Nat} {n : Node}
    (h : dbFind db nid = some n) : getOrCreate db nid now = (n, db) := by
  unfold getOrCreate
  rw [h]

end DbLemmas

section SensorNodeLemmas

lemma sensorNode_reserved (n : Node) (s : String) (d : Int) (t : Nat) :
    (sensorNode n s d t).reserved = n.reserved := by
  unfold sensorNode
  dsimp only
  split <;> split <;> rfl

lemma sensorNode_admin_mode (n : Node) (s : String) (d : Int) (t : Nat) :
    (sensorNode n s d t).admin_mode = n.admin_mode := by
  unfold sensorNode
  dsimp only
  split <;> split <;> rfl

lemma sensorNode_node_id (n : Node) (s : String) (d : Int) (t : Nat) :
    (sensorNode n s d t).node_id = n.node_id := by
  unfold sensorNode
  dsimp only
  split <;> split <;> rfl

end SensorNodeLemmas

section InvariantLemmas

/-- The per-record half of ReservedNotMaintenance, for list-level lemmas. -/
def resOk (db : List Node) : Prop :=
  ∀ n ∈ db, n.reserved = true → n.admin_mode ≠ "MAINTENANCE"

lemma getOrCreate_fst_cases (db : List Node) (nid : String) (now : Nat) :
    (getOrCreate db nid now).1 ∈ db ∨
      (getOrCreate db nid now).1 = create_default_node nid now := by
  unfold getOrCreate
  cases h : dbFind db nid with
  | some n => exact Or.inl (dbFind_mem h)
  | none => exact Or.inr rfl

lemma resOk_getOrCreate {db : List Node} (nid : String) (now : Nat)
    (h : resOk db) : resOk (getOrCreate db nid now).2 := by
  intro n hn hres
  rcases mem_getOrCreate hn with h1 | rfl
  · exact h n h1 hres
  · simp [create_default_node] at hres

lemma resOk_enforce {db : List Node} (node : Node) (now : Nat)
    (h : resOk db) : resOk (enforce_expiry db node now) := by
  intro n hn hres
  unfold enforce_expiry at hn
  split at hn
  · rcases mem_dbUpdateFirst hn with h1 | ⟨m, _, rfl⟩
    · exact h n h1 hres
    · simp [clearExpired] at hres
  · exact h n hn hres

lemma resOk_foldl_enforce (l : List Node) {db : List Node} (now : Nat)
    (h : resOk db) :
    resOk (l.foldl (fun db node => enforce_expiry db node now) db) := by
  induction l generalizing db with
  | nil => exact h
  | cons a t ih => exact ih (resOk_enforce a now h)

lemma resInv_update_node (st : ServerState) (nid sensor : String) (dist : Int)
    (now : Nat) (h : ReservedNotMaintenance st) :
    ReservedNotMaintenance (update_node st nid sensor dist now) := by
  intro n hn hres
  unfold update_node at hn
  dsimp only at hn
  rcases mem_dbUpdateFirst hn with h1 | ⟨m, _, rfl⟩
  · exact resOk_enforce _ now (resOk_getOrCreate nid now h) n h1 hres
  · rw [sensorNode_reserved] at hres
    rw [sensorNode_admin_mode]
    rcases getOrCreate_fst_cases st.parking nid now with h2 | h2
    · exact h _ h2 hres
    · rw [h2] at hres
      simp [create_default_node] at hres

lemma resInv_reserve_space (st : ServerState) (nid : String) (rsv : Bool)
    (now : Nat) (tok : String) (h : ReservedNotMaintenance st) :
    ReservedNotMaintenance (reserve_space st nid rsv now tok).2 := by
  intro n hn hres
  unfold reserve_space at hn
  dsimp only at hn
  split at hn
  · exact resOk_getOrCreate nid now h n hn hres
  · rename_i hne
    split at hn
    · dsimp only at hn
      rcases mem_dbUpdateFirst hn with h1 | ⟨m, hm, rfl⟩
      · exact resOk_getOrCreate nid now h n h1 hres
      · rw [dbFind_getOrCreate] at hm
        cases hm
        dsimp only
        intro habs
        exact hne (by simp [habs])
    · dsimp only at hn
      rcases mem_dbUpdateFirst hn with h1 | ⟨m, _, rfl⟩
      · exact resOk_getOrCreate nid now h n h1 hres
      · simp at hres

lemma get_status_parking (st : ServerState) (now : Nat) :
    (get_status st now).2.parking =
      st.parking.foldl (fun db node => enforce_expiry db node now) st.parking := by
  unfold get_status
  dsimp only
  generalize st.parking = l
  suffices hgen : ∀ (l : List Node) (acc : List (String × StatusView) × List Node),
      (l.foldl (fun acc node =>
        (acc.1 ++ [(node.node_id, mkView node)], enforce_expiry acc.2 node now)) acc).2
        = l.foldl (fun db node => enforce_expiry db node now) acc.2 by
    exact hgen l ([], l)
  intro l
  induction l with
  | nil => intro acc; rfl
  | cons a t ih => intro acc; exact ih _

lemma resInv_get_status (st : ServerState) (now : Nat)
    (h : ReservedNotMaintenance st) :
    ReservedNotMaintenance (get_status st now).2 := by
  intro n hn hres
  rw [get_status_parking] at hn
  exact resOk_foldl_enforce st.parking now h n hn hres

lemma resInv_admin_maintenance (st : ServerState) (nid : String) (now : Nat)
    (h : ReservedNotMaintenance st) :
    ReservedNotMaintenance (admin_maintenance st nid now).2 := by
  intro n hn hres
  unfold admin_maintenance at hn
  dsimp only at hn
  rcases mem_dbUpdateFirst hn with h1 | ⟨m, _, rfl⟩
  · exact h n h1 hres
  · simp at hres

lemma resInv_admin_resume (st : ServerState) (nid : String) (now : Nat)
    (h : ReservedNotMaintenance st) :
    ReservedNotMaintenance (admin_resume st nid now).2 := by
  intro n hn hres
  unfold admin_resume at hn
  dsimp only at hn
  rcases mem_dbUpdateFirst hn with h1 | ⟨m, _, rfl⟩
  · exact h n h1 hres
  · simp

lemma reachable_resInv {st : ServerState} (h : Reachable st) :
    ReservedNotMaintenance st := by
  induction h with
  | init => intro n hn; simp [initState] at hn
  | step _ hstep ih =>
      cases hstep with
      | sensor nid sensor dist now => exact resInv_update_node _ nid sensor dist now ih
      | reserveStep nid rsv now tok => exact resInv_reserve_space _ nid rsv now tok ih
      | statusStep now => exact resInv_get_status _ now ih
      | maintStep nid now => exact resInv_admin_maintenance _ nid now ih
      | resumeStep nid now => exact resInv_admin_resume _ nid now ih

end InvariantLemmas

section UpdateNodeLemmas

lemma dbFind_enforce_isSome {db : List Node} {node : Node} {now : Nat}
    {nid : String} {m : Node} (h : dbFind db nid = some m)
    (hnode : node.node_id = nid) :
    ∃ m2, dbFind (enforce_expiry db node now) nid = some m2 := by
  unfold enforce_expiry
  split
  · rw [hnode]
    exact ⟨clearExpired now m,
      dbFind_update_of_found h (by simp [clearExpired, dbFind_node_id h])⟩
  · exact ⟨m, h⟩

lemma update_node_sessions {st : ServerState} {nid : String} {r : Node}
    (hfind : dbFind st.parking nid = some r) (sensor : String) (dist : Int)
    (now : Nat) :
    (update_node st nid sensor dist now).sessions =
      sensorSessions r st.sessions nid sensor now := by
  unfold update_node
  rw [getOrCreate_found hfind]

lemma dbFind_update_node {st : ServerState} {nid : String} {r : Node}
    (hfind : dbFind st.parking nid = some r) (sensor : String) (dist : Int)
    (now : Nat) :
    dbFind (update_node st nid sensor dist now).parking nid =
      some (sensorNode r sensor dist now) := by
  unfold update_node
  rw [getOrCreate_found hfind]
  dsimp only
  obtain ⟨m2, hm2⟩ := dbFind_enforce_isSome hfind (dbFind_node_id hfind)
  exact dbFind_update_of_found hm2
    (by rw [sensorNode_node_id]; exact dbFind_node_id hfind)

lemma sensorSessions_open (node0 : Node) (sessions : List SessionRecord)
    (nid : String) (now : Nat) (h : node0.sensor_status = "FREE") :
    sensorSessions node0 sessions nid "OCCUPIED" now = sessions := by
  unfold sensorSessions
  simp [h]

lemma sensorSessions_close (node0 : Node) (sessions : List SessionRecord)
    (nid : String) (now s : Nat) (hocc : node0.sensor_status = "OCCUPIED")
    (hact : node0.active_session_start = some s) (hs : s ≠ 0) :
    sensorSessions node0 sessions nid "FREE" now =
      sessions ++ [{ node_id := nid, start_time := s, end_time := now,
                     duration_seconds := (now : Int) - (s : Int) }] := by
  unfold sensorSessions
  simp [hocc, hact, optTruthy, hs]

lemma sensorNode_sensor_status (n : Node) (s : String) (d : Int) (t : Nat) :
    (sensorNode n s d t).sensor_status = s := rfl

lemma sensorNode_open_active (node0 : Node) (d : Int) (now : Nat)
    (h : node0.sensor_status = "FREE") :
    (sensorNode node0 "OCCUPIED" d now).active_session_start = some now := by
  unfold sensorNode
  simp [h]

lemma sensorNode_close_active (node0 : Node) (d : Int) (now : Nat)
    (h : node0.sensor_status = "OCCUPIED") :
    (sensorNode node0 "FREE" d now).active_session_start = none := by
  unfold sensorNode
  simp [h]

lemma sensorSessions_prefix (node0 : Node) (sessions : List SessionRecord)
    (nid sensor : String) (now : Nat) :
    List.IsPrefix sessions (sensorSessions node0 sessions nid sensor now) := by
  unfold sensorSessions
  dsimp only
  repeat' split
  all_goals first
    | exact List.prefix_append _ _
    | exact List.prefix_rfl

lemma reserve_space_sessions (st : ServerState) (nid : String) (rsv : Bool)
    (now : Nat) (tok : String) :
    (reserve_space st nid rsv now tok).2.sessions = st.sessions := by
  unfold reserve_space
  dsimp only
  split
  · rfl
  · split <;> rfl

/-- Every handler of src/app.py only ever appends to the sessions
collection: the prior session log is a prefix of the new one, so a stored
SessionRecord is never mutated or deleted by any later operation. The
code contains a single insert_one against parking_sessions and no update
or delete on it; the analytics endpoints only read. -/
lemma step_sessions_prefix {sa sb : ServerState} (h : Step sa sb) :
    List.IsPrefix sa.sessions sb.sessions := by
  cases h with
  | sensor nid sensor dist now =>
      unfold update_node
      dsimp only
      exact sensorSessions_prefix _ _ _ _ _
  | reserveStep nid rsv now tok =>
      rw [reserve_space_sessions]
  | statusStep now => exact List.prefix_rfl
  | maintStep nid now => exact List.prefix_rfl
  | resumeStep nid now => exact List.prefix_rfl

end UpdateNodeLemmas

/-! ## Claim theorems -/

/-- C1: compute_final follows the stated priority order, first match
winning: MAINTENANCE when admin_mode is MAINTENANCE; otherwise VIOLATION
when reserved, not checked in and the sensor reads OCCUPIED; otherwise
RESERVED when reserved; otherwise the raw sensor status. In particular
maintenance mode forces MAINTENANCE regardless of the other inputs. -/
theorem compute_final_priority (n : Node) :
    (n.admin_mode = "MAINTENANCE" → compute_final n = "MAINTENANCE") ∧
    (n.admin_mode ≠ "MAINTENANCE" → n.reserved = true → n.checked_in = false →
      n.sensor_status = "OCCUPIED" → compute_final n = "VIOLATION") ∧
    (n.admin_mode ≠ "MAINTENANCE" → n.reserved = true →
      (n.checked_in = true ∨ n.sensor_status ≠ "OCCUPIED") →
      compute_final n = "RESERVED") ∧
    (n.admin_mode ≠ "MAINTENANCE" → n.reserved = false →
      compute_final n = n.sensor_status) := by
  refine ⟨?_, ?_, ?_, ?_⟩
  · intro h
    simp [compute_final, h]
  · intro h1 h2 h3 h4
    simp [compute_final, h1, h2, h3, h4]
  · intro h1 h2 h3
    rcases h3 with h3 | h3 <;> simp [compute_final, h1, h2, h3]
  · intro h1 h2
    simp [compute_final, h1, h2]

/-- C1 witness: a default node in NORMAL mode passes its raw sensor
status through. -/
theorem compute_final_priority_witness :
    compute_final (create_default_node "A" 0) = "FREE" :=
  (compute_final_priority (create_default_node "A" 0)).2.2.2 (by decide) rfl

/-- C8: applyExpiry is idempotent, and on a record that is not reserved it
is a no-op. -/
theorem applyExpiry_idempotent (n : Node) (now : Nat) :
    applyExpiry (applyExpiry n now) now = applyExpiry n now ∧
    (n.reserved = false → applyExpiry n now = n) := by
  constructor
  · by_cases h : expiryCond n now = true
    · have h2 : applyExpiry n now = clearExpired now n := by
        unfold applyExpiry
        rw [h]
        rfl
      rw [h2]
      unfold applyExpiry
      simp [expiryCond, clearExpired]
    · unfold applyExpiry
      simp [h]
  · intro hres
    unfold applyExpiry
    simp [expiryCond, hres]

/-- C8 witness: applyExpiry is a no-op on the default (unreserved) node. -/
theorem applyExpiry_idempotent_witness :
    applyExpiry (create_default_node "A" 0) 5 = create_default_node "A" 0 :=
  (applyExpiry_idempotent (create_default_node "A" 0) 5).2 rfl

/-- C2: evaluation of the code at a failing input. Reserve node A at time
100 (expiry 130), then process a sensor update at time 200, after the
expiry. enforce_expiry runs first and clears the stored document, but
update_node then persists the stale in-memory dict wholesale, so the
persisted record still carries the expired reservation: reserved is true
and reservation_expiry and qr_token are still set — contradicting the
claim that the record persisted by the sensor update has the reservation
cleared. -/
theorem update_node_stale_reservation_persists :
    (dbFind (update_node (reserve_space initState "A" true 100 "T").2
        "A" "OCCUPIED" 5 200).parking "A").map
      (fun n => (n.reserved, n.reservation_expiry, n.qr_token)) =
      some (true, some 130, some "T") := by
  rfl

/-- C3: evaluation of the code at failing inputs. Occupy node A at time
50, reserve it at time 100 (expiry 130, stored violation still false).
A status read at time 200 (past expiry) still reports reserved true and
final_status VIOLATION, because the view is built from the document as
fetched before the enforce_expiry write; and the reported violation flag
is the stored field (false), while recomputing it from the current record
fields yields true. -/
theorem get_status_stale_view :
    ((((get_status ((reserve_space
        (update_node initState "A" "OCCUPIED" 5 50) "A" true 100 "T").2)
        200).1.find? (fun p => p.1 == "A")).map
      (fun p => (p.2.reserved, p.2.final_status, p.2.violation))) =
      some (true, "VIOLATION", false)) ∧
    ((dbFind ((reserve_space
        (update_node initState "A" "OCCUPIED" 5 50) "A" true 100 "T").2).parking
        "A").map recomputeViolation = some true) := by
  constructor <;> rfl

/-- C5: evaluation of the code at a failing input. From the empty
database, reserve node A at time 100 and put it under maintenance at time
140 — a reachable sequence. The resulting stored record has reserved
false while reservation_start and reservation_expiry are still set:
admin_maintenance does not clear them, so invariant I1 (reservation_expiry
set iff reserved) is broken in a reachable state. -/
theorem admin_maintenance_breaks_I1 :
    Reachable ((admin_maintenance
      (reserve_space initState "A" true 100 "T").2 "A" 140).2) ∧
    (dbFind ((admin_maintenance
        (reserve_space initState "A" true 100 "T").2 "A" 140).2).parking
        "A").map
      (fun n => (n.reserved, n.reservation_start, n.reservation_expiry,
                 n.admin_mode)) =
      some (false, some 100, some 130, "MAINTENANCE") := by
  constructor
  · exact Reachable.step
      (Reachable.step Reachable.init
        (Step.reserveStep initState "A" true 100 "T"))
      (Step.maintStep (reserve_space initState "A" true 100 "T").2 "A" 140)
  · rfl

/-- C9 counterexample: on the empty database, setMaintenance and resume
for the unknown node X both report plain success instead of failing with
NotFound, and leave the database unchanged. -/
theorem admin_unknown_reports_ok :
    admin_maintenance initState "X" 5 = (Except.ok (), initState) ∧
    admin_resume initState "X" 5 = (Except.ok (), initState) := by
  constructor <;> rfl

/-- C9 amended: when no record with the given node_id exists,
admin_maintenance and admin_resume match no document, create nothing,
leave the state unchanged — and still report success; they never fail
with NotFound. -/
theorem admin_unknown_noop_ok (st : ServerState) (nid : String) (now : Nat)
    (h : dbFind st.parking nid = none) :
    admin_maintenance st nid now = (Except.ok (), st) ∧
    admin_resume st nid now = (Except.ok (), st) := by
  unfold admin_maintenance admin_resume
  rw [dbUpdateFirst_of_not_found h, dbUpdateFirst_of_not_found h]
  exact ⟨rfl, rfl⟩

/-- C9 amended witness: the unknown node Y on the empty database. -/
theorem admin_unknown_noop_ok_witness :
    admin_maintenance initState "Y" 7 = (Except.ok (), initState) ∧
    admin_resume initState "Y" 7 = (Except.ok (), initState) :=
  admin_unknown_noop_ok initState "Y" 7 rfl

/-- C4: the spec-modelled check-in operation, after running applyExpiry,
fails NotFound when no reservation is active, AlreadyCheckedIn when
already checked in, InvalidToken on a token mismatch, and otherwise
succeeds setting exactly checked_in, checkin_time and last_update. -/
theorem applyCheckIn_cases (space : Node) (tok : String) (now : Nat) :
    ((applyExpiry space now).reserved = false →
      applyCheckIn space tok now = Except.error CheckInError.NotFound) ∧
    ((applyExpiry space now).reserved = true →
      (applyExpiry space now).checked_in = true →
      applyCheckIn space tok now = Except.error CheckInError.AlreadyCheckedIn) ∧
    ((applyExpiry space now).reserved = true →
      (applyExpiry space now).checked_in = false →
      some tok ≠ (applyExpiry space now).qr_token →
      applyCheckIn space tok now = Except.error CheckInError.InvalidToken) ∧
    ((applyExpiry space now).reserved = true →
      (applyExpiry space now).checked_in = false →
      some tok = (applyExpiry space now).qr_token →
      applyCheckIn space tok now = Except.ok
        { applyExpiry space now with checked_in := true,
                                     checkin_time := some now,
                                     last_update := now }) := by
  refine ⟨?_, ?_, ?_, ?_⟩ <;> intros <;> unfold applyCheckIn <;> simp_all

/-- C4 sample: an active unexpired reservation holding token T. -/
def checkinSample : Node :=
  { node_id := "A"
    sensor_status := "FREE"
    distance_cm := 0
    reserved := true
    violation := false
    reservation_start := some 100
    reservation_expiry := some 130
    admin_mode := "NORMAL"
    qr_token := some "T"
    checked_in := false
    checkin_time := none
    active_session_start := none
    last_update := 100 }

/-- C4 witness: checking in with the stored token before expiry succeeds
and sets checked_in, checkin_time and last_update. -/
theorem applyCheckIn_cases_witness :
    applyCheckIn checkinSample "T" 110 = Except.ok
      { applyExpiry checkinSample 110 with checked_in := true,
                                           checkin_time := some 110,
                                           last_update := 110 } :=
  (applyCheckIn_cases checkinSample "T" 110).2.2.2 rfl rfl rfl

/-- Helper: the HTTP outcome of reserve_space depends only on the
maintenance test on the fetched (or freshly created) node. -/
lemma reserve_space_fst (st : ServerState) (nid : String) (rsv : Bool)
    (now : Nat) (tok : String) :
    (reserve_space st nid rsv now tok).1 =
      if (getOrCreate st.parking nid now).1.admin_mode == "MAINTENANCE"
      then Except.error (400, "Node in maintenance") else Except.ok () := by
  unfold reserve_space
  dsimp only
  split
  · rfl
  · split <;> rfl

/-- C6: reserve_space fails (with the HTTP 400 precondition error) exactly
when a stored record with that node_id is in maintenance mode, and on
failure the whole server state is returned unchanged — no field was
mutated before the rejection. -/
theorem reserve_space_maintenance_reject (st : ServerState) (nid : String)
    (rsv : Bool) (now : Nat) (tok : String) :
    ((reserve_space st nid rsv now tok).1 ≠ Except.ok () ↔
      ∃ n, dbFind st.parking nid = some n ∧ n.admin_mode = "MAINTENANCE") ∧
    (∀ n, dbFind st.parking nid = some n → n.admin_mode = "MAINTENANCE" →
      reserve_space st nid rsv now tok =
        (Except.error (400, "Node in maintenance"), st)) := by
  constructor
  · rw [reserve_space_fst]
    cases h : dbFind st.parking nid with
    | some n =>
        rw [getOrCreate_found h]
        by_cases hm : n.admin_mode = "MAINTENANCE"
        · simp [hm]
        · simp [hm]
    | none =>
        unfold getOrCreate
        rw [h]
        simp [create_default_node]
  · intro n hfindn hm
    unfold reserve_space
    rw [getOrCreate_found hfindn]
    dsimp only
    simp [hm]

/-- C6 sample: a single stored node under maintenance. -/
def maintSample : Node :=
  { create_default_node "A" 0 with admin_mode := "MAINTENANCE" }

/-- C6 witness: reserving the maintenance node A is rejected with the 400
error and the state comes back unchanged. -/
theorem reserve_space_maintenance_reject_witness :
    reserve_space ⟨[maintSample], [], []⟩ "A" true 5 "T" =
      (Except.error (400, "Node in maintenance"), ⟨[maintSample], [], []⟩) :=
  (reserve_space_maintenance_reject ⟨[maintSample], [], []⟩ "A" true 5 "T").2
    maintSample rfl rfl

/-- C7: a FREE to OCCUPIED to FREE sensor cycle with no intervening
events appends exactly one SessionRecord, whose start_time is the time of
the opening update, whose end_time is the time of the closing update, and
whose duration_seconds is their difference and is nonnegative; afterwards
active_session_start is cleared. The record is never mutated or deleted:
under every operation of the system the prior session log is a prefix of
the new one, so existing SessionRecords survive unchanged. -/
theorem session_round_trip (st : ServerState) (r : Node) (nid : String)
    (d1 d2 : Int) (t1 t2 : Nat) (st1 st2 : ServerState)
    (hfind : dbFind st.parking nid = some r)
    (hfree : r.sensor_status = "FREE") (h0 : 0 < t1) (h12 : t1 ≤ t2)
    (hst1 : st1 = update_node st nid "OCCUPIED" d1 t1)
    (hst2 : st2 = update_node st1 nid "FREE" d2 t2) :
    st1.sessions = st.sessions ∧
    st2.sessions = st.sessions ++
      [{ node_id := nid, start_time := t1, end_time := t2,
         duration_seconds := (t2 : Int) - (t1 : Int) }] ∧
    0 ≤ (t2 : Int) - (t1 : Int) ∧
    (dbFind st2.parking nid).map Node.active_session_start = some none ∧
    (∀ sa sb : ServerState, Step sa sb →
      List.IsPrefix sa.sessions sb.sessions) := by
  subst hst1 hst2
  have hfind1 : dbFind (update_node st nid "OCCUPIED" d1 t1).parking nid =
      some (sensorNode r "OCCUPIED" d1 t1) :=
    dbFind_update_node hfind "OCCUPIED" d1 t1
  have hs1 : (update_node st nid "OCCUPIED" d1 t1).sessions = st.sessions := by
    rw [update_node_sessions hfind, sensorSessions_open _ _ _ _ hfree]
  refine ⟨hs1, ?_, by omega, ?_, fun sa sb h => step_sessions_prefix h⟩
  · rw [update_node_sessions hfind1, hs1]
    exact sensorSessions_close _ _ _ _ t1
      (sensorNode_sensor_status r "OCCUPIED" d1 t1)
      (sensorNode_open_active r d1 t1 hfree) (by omega)
  · rw [dbFind_update_node hfind1 "FREE" d2 t2]
    simp [sensorNode_close_active _ d2 t2
      (sensorNode_sensor_status r "OCCUPIED" d1 t1)]

/-- C7 witness: a concrete FREE, unreserved node occupied at time 10 and
freed at time 15 yields the single session record of duration 5, and the
closing update — like every operation — only appends to the session log. -/
theorem session_round_trip_witness :
    (update_node ⟨[create_default_node "B" 1], [], []⟩ "B" "OCCUPIED" 3 10).sessions
        = ([] : List SessionRecord) ∧
    (update_node (update_node ⟨[create_default_node "B" 1], [], []⟩
        "B" "OCCUPIED" 3 10) "B" "FREE" 4 15).sessions =
      [] ++ [{ node_id := "B", start_time := 10, end_time := 15,
               duration_seconds := (15 : Int) - (10 : Int) }] ∧
    0 ≤ (15 : Int) - (10 : Int) ∧
    (dbFind (update_node (update_node ⟨[create_default_node "B" 1], [], []⟩
        "B" "OCCUPIED" 3 10) "B" "FREE" 4 15).parking "B").map
      Node.active_session_start = some none ∧
    List.IsPrefix
      (update_node ⟨[create_default_node "B" 1], [], []⟩ "B" "OCCUPIED" 3 10).sessions
      (update_node (update_node ⟨[create_default_node "B" 1], [], []⟩
        "B" "OCCUPIED" 3 10) "B" "FREE" 4 15).sessions :=
  have h := session_round_trip ⟨[create_default_node "B" 1], [], []⟩
    (create_default_node "B" 1) "B" 3 4 10 15 _ _ rfl rfl (by decide)
    (by decide) rfl rfl
  ⟨h.1, h.2.1, h.2.2.1, h.2.2.2.1,
    h.2.2.2.2 _ _ (Step.sensor
      (update_node ⟨[create_default_node "B" 1], [], []⟩ "B" "OCCUPIED" 3 10)
      "B" "FREE" 4 15)⟩

/-- C10: on any reachable state, reserving a space that already holds an
active unexpired reservation is not rejected: it silently overwrites the
reservation with reservation_start now, reservation_expiry now plus
RESERVATION_DURATION and the freshly generated token, and resets
checked_in to false, invalidating the previously issued token. -/
theorem reserve_overwrites_active_reservation (st : ServerState)
    (nid : String) (n : Node) (now e : Nat) (tok : String)
    (hreach : Reachable st) (hfind : dbFind st.parking nid = some n)
    (hres : n.reserved = true) (_hexp : n.reservation_expiry = some e)
    (_hlt : now < e) :
    (reserve_space st nid true now tok).1 = Except.ok () ∧
    dbFind (reserve_space st nid true now tok).2.parking nid =
      some { n with reserved := true, reservation_start := some now,
                    reservation_expiry := some (now + RESERVATION_DURATION),
                    qr_token := some tok, checked_in := false,
                    last_update := now } := by
  have hadm : n.admin_mode ≠ "MAINTENANCE" :=
    reachable_resInv hreach n (dbFind_mem hfind) hres
  constructor
  · rw [reserve_space_fst, getOrCreate_found hfind]
    simp [hadm]
  · unfold reserve_space
    rw [getOrCreate_found hfind]
    dsimp only
    simp only [beq_iff_eq, hadm, if_false, if_true, ite_true, ite_false,
      reduceIte]
    exact dbFind_update_of_found hfind (by simp [dbFind_node_id hfind])

/-- C10 sample: the state after reserving node A at time 100 from the
empty database; node A holds an active reservation with token T until
time 130. -/
def reReserveState : ServerState := (reserve_space initState "A" true 100 "T").2

/-- C10 sample: the stored record of node A in reReserveState. -/
def reReserveNode : Node :=
  { node_id := "A", sensor_status := "FREE", distance_cm := 0,
    reserved := true, violation := false, reservation_start := some 100,
    reservation_expiry := some 130, admin_mode := "NORMAL",
    qr_token := some "T", checked_in := false, checkin_time := none,
    active_session_start := none, last_update := 100 }

/-- C10 witness: re-reserving node A at time 110, before the expiry 130,
succeeds and overwrites the reservation with the fresh token U. -/
theorem reserve_overwrites_active_reservation_witness :
    (reserve_space reReserveState "A" true 110 "U").1 = Except.ok () ∧
    dbFind (reserve_space reReserveState "A" true 110 "U").2.parking "A" =
      some { reReserveNode with reserved := true,
                                reservation_start := some 110,
                                reservation_expiry := some (110 + RESERVATION_DURATION),
                                qr_token := some "U", checked_in := false,
                                last_update := 110 } :=
  reserve_overwrites_active_reservation reReserveState "A" reReserveNode
    110 130 "U"
    (Reachable.step Reachable.init (Step.reserveStep initState "A" true 100 "T"))
    rfl rfl rfl (by decide)

end Parking
